import Mathlib

/-!
Verification of the conversational 3D-model-generation backend
(`app/services/models.py`): the parameter-extraction, template-catalog,
code-synthesis and conversation-state-machine logic, shallowly embedded
over `List Char` with Python `re` semantics reproduced by hand-written
matchers for the exact patterns the source uses.  Python floats are
modelled as exact rationals (`ℚ`); Python dicts as insertion-ordered
association lists with in-place overwrite (`dictSet`).
-/

namespace Web3D

/-- Characters of Python's regex class `\s` (ASCII range). -/
def isSpaceChar (c : Char) : Bool :=
  c == ' ' || c == '\t' || c == '\n' || c == '\r' || c == Char.ofNat 11 || c == Char.ofNat 12

/-- Characters of `\d`. -/
def isDigitChar (c : Char) : Bool := '0' ≤ c && c ≤ '9'

/-- Characters of `\w` (ASCII range). -/
def isWordChar (c : Char) : Bool :=
  ('a' ≤ c && c ≤ 'z') || ('A' ≤ c && c ≤ 'Z') || isDigitChar c || c == '_'

/-- ASCII `str.lower` on one character. -/
def lowerChar (c : Char) : Char :=
  if 'A' ≤ c && c ≤ 'Z' then Char.ofNat (c.toNat + 32) else c

/-- ASCII `str.upper` on one character. -/
def upperChar (c : Char) : Char :=
  if 'a' ≤ c && c ≤ 'z' then Char.ofNat (c.toNat - 32) else c

/-- Python `str.lower()` (the source only feeds ASCII text through it). -/
def lowerL (l : List Char) : List Char := l.map lowerChar

/-- Python `str.upper()`. -/
def upperL (l : List Char) : List Char := l.map upperChar

/-- Python `str.strip()`: drop leading and trailing whitespace. -/
def stripL (l : List Char) : List Char :=
  ((l.dropWhile fun c => isSpaceChar c).reverse.dropWhile fun c => isSpaceChar c).reverse

/-- Test that `needle` begins `hay`. -/
def startsWithL : List Char → List Char → Bool
  | [], _ => true
  | _ :: _, [] => false
  | nc :: ncs, hc :: hcs => nc == hc && startsWithL ncs hcs

/-- Python's `needle in hay` substring test. -/
def containsSub : List Char → List Char → Bool
  | needle, [] => startsWithL needle []
  | needle, c :: rest => startsWithL needle (c :: rest) || containsSub needle rest

def lToStr (l : List Char) : String := String.mk l

/-- Python dict lookup on an insertion-ordered association list. -/
def lookupD {α : Type} : List (String × α) → String → Option α
  | [], _ => none
  | (k, v) :: t, key => if k = key then some v else lookupD t key

/-- Python dict assignment `m[key] = v`: overwrite in place, else append. -/
def dictSet {α : Type} (m : List (String × α)) (key : String) (v : α) : List (String × α) :=
  if (lookupD m key).isSome then
    m.map fun p => if p.1 = key then (key, v) else p
  else m ++ [(key, v)]

/-- Python dict `m.update(new)`. -/
def dictUpdate {α : Type} (m new : List (String × α)) : List (String × α) :=
  new.foldl (fun acc p => dictSet acc p.1 p.2) m

def digitsToNat (l : List Char) : Nat :=
  l.foldl (fun n c => 10 * n + (c.toNat - 48)) 0

/-- Numeric value of a group matched by `\d+\.?\d*`, as Python `float()`
reads it (exact rational in place of the IEEE double). -/
def numGroupVal (l : List Char) : ℚ :=
  let intPart := l.takeWhile fun c => isDigitChar c
  let rest := l.drop intPart.length
  let frac :=
    match rest with
    | '.' :: fs => fs
    | _ => []
  (digitsToNat intPart : ℚ) + (digitsToNat frac : ℚ) / (10 : ℚ) ^ frac.length

/-- Python `float(s)` on finite decimal literals (optional sign, decimal
point, exponent); `none` where `float()` raises `ValueError`.  (`inf`,
`nan` and underscore separators never occur in the source's data.) -/
def pyFloat (s : String) : Option ℚ :=
  let t := stripL s.data
  let sgn : ℚ × List Char :=
    match t with
    | '+' :: r => (1, r)
    | '-' :: r => (-1, r)
    | _ => (1, t)
  let d1 := sgn.2.takeWhile fun c => isDigitChar c
  let r1 := sgn.2.drop d1.length
  let fracRest : List Char × List Char :=
    match r1 with
    | '.' :: r =>
      let dd := r.takeWhile fun c => isDigitChar c
      (dd, r.drop dd.length)
    | _ => ([], r1)
  if d1.isEmpty && fracRest.1.isEmpty then none
  else
    let mant : ℚ :=
      (digitsToNat d1 : ℚ) + (digitsToNat fracRest.1 : ℚ) / (10 : ℚ) ^ fracRest.1.length
    match fracRest.2 with
    | [] => some (sgn.1 * mant)
    | e :: r2 =>
      if e == 'e' || e == 'E' then
        let esgn : Bool × List Char :=
          match r2 with
          | '+' :: r3 => (false, r3)
          | '-' :: r3 => (true, r3)
          | _ => (false, r2)
        let d3 := esgn.2.takeWhile fun c => isDigitChar c
        if d3.isEmpty || !(esgn.2.drop d3.length).isEmpty then none
        else if esgn.1 then some (sgn.1 * mant / (10 : ℚ) ^ digitsToNat d3)
        else some (sgn.1 * mant * (10 : ℚ) ^ digitsToNat d3)
      else none

/-- Candidate (group, rest) splits for the regex piece `\d+\.?\d*` anchored
at the head of `s`, in the order a backtracking engine tries them: longest
fractional form first, then the pure-digit prefixes from long to short. -/
def numSplits (s : List Char) : List (List Char × List Char) :=
  let d1 := s.takeWhile fun c => isDigitChar c
  if d1.isEmpty then []
  else
    let r1 := s.drop d1.length
    let dotCands :=
      match r1 with
      | '.' :: r2 =>
        let d2 := r2.takeWhile fun c => isDigitChar c
        (List.range (d2.length + 1)).reverse.map fun k =>
          (d1 ++ '.' :: d2.take k, r2.drop k)
      | _ => []
    let plainCands := (List.range d1.length).reverse.map fun k =>
      (d1.take (k + 1), s.drop (k + 1))
    dotCands ++ plainCands

/-- Greedy match of `\d+\.?\d*` when nothing follows it in the pattern. -/
def numGreedy (s : List Char) : Option (List Char) :=
  (numSplits s).head?.map Prod.fst

/-- Match `(\d+\.?\d*)\s*UNIT` at the head of `s`; returns the numeric group
and the rest after the unit suffix. -/
def matchUnitAt (unit : List Char) (s : List Char) : Option (List Char × List Char) :=
  (numSplits s).findSome? fun nr =>
    let r2 := nr.2.dropWhile fun c => isSpaceChar c
    if startsWithL unit r2 then some (nr.1, r2.drop unit.length) else none

/-- Semantics of `re.finditer` for `(\d+\.?\d*)\s*UNIT`: non-overlapping matches left to
right, each with the index where the match starts (fuel = remaining length). -/
def finditerUnit (unit : List Char) : Nat → List Char → Nat → List (List Char × Nat)
  | 0, _, _ => []
  | _ + 1, [], _ => []
  | fuel + 1, c :: rest, pos =>
    match matchUnitAt unit (c :: rest) with
    | some (num, r) =>
      (num, pos) :: finditerUnit unit fuel r (pos + ((c :: rest).length - r.length))
    | none => finditerUnit unit fuel rest (pos + 1)

/-- Python `message_lower[max(0, pos - 20):pos]`, the 20-character lookback window. -/
def ctxAt (msg : List Char) (pos : Nat) : List Char := (msg.take pos).drop (pos - 20)

/-- Semantics of `re.search`: try the anchored matcher at every position, left to right. -/
def searchPos {β : Type} : (List Char → Option β) → List Char → Option β
  | f, [] => f []
  | f, c :: rest =>
    match f (c :: rest) with
    | some b => some b
    | none => searchPos f rest

/-- Match `NAME\s+(?:is|should be|=)\s+(\d+\.?\d*)` at the head of `s`
(first slot-filling pattern); returns the numeric group. -/
def matchP1At (name : List Char) (s : List Char) : Option (List Char) :=
  if startsWithL name s then
    let r := s.drop name.length
    let sp := r.takeWhile fun c => isSpaceChar c
    if sp.isEmpty then none
    else
      let r1 := r.drop sp.length
      ["is".data, "should be".data, "=".data].findSome? fun a =>
        if startsWithL a r1 then
          let r2 := r1.drop a.length
          let sp2 := r2.takeWhile fun c => isSpaceChar c
          if sp2.isEmpty then none
          else numGreedy (r2.drop sp2.length)
        else none
  else none

/-- Match `(?:set|make)\s+(?:the)?\s*NAME\s+(?:to|=)\s+(\d+\.?\d*)` at the
head of `s` (second slot-filling pattern). -/
def matchP2At (name : List Char) (s : List Char) : Option (List Char) :=
  ["set".data, "make".data].findSome? fun kw =>
    if startsWithL kw s then
      let r := s.drop kw.length
      let sp := r.takeWhile fun c => isSpaceChar c
      if sp.isEmpty then none
      else
        let r1 := r.drop sp.length
        let tailMatch : List Char → Option (List Char) := fun r2 =>
          let r3 := r2.dropWhile fun c => isSpaceChar c
          if startsWithL name r3 then
            let r4 := r3.drop name.length
            let sp2 := r4.takeWhile fun c => isSpaceChar c
            if sp2.isEmpty then none
            else
              let r5 := r4.drop sp2.length
              ["to".data, "=".data].findSome? fun t =>
                if startsWithL t r5 then
                  let r6 := r5.drop t.length
                  let sp3 := r6.takeWhile fun c => isSpaceChar c
                  if sp3.isEmpty then none
                  else numGreedy (r6.drop sp3.length)
                else none
          else none
        match (if startsWithL "the".data r1 then tailMatch (r1.drop 3) else none) with
        | some v => some v
        | none => tailMatch r1
    else none

/-- Match `NAME:\s*(\d+\.?\d*)` at the head of `s` (third slot-filling
pattern). -/
def matchP3At (name : List Char) (s : List Char) : Option (List Char) :=
  if startsWithL name s then
    match s.drop name.length with
    | ':' :: r2 => numGreedy (r2.dropWhile fun c => isSpaceChar c)
    | _ => none
  else none

/-- Match `NAME(?:\s+of)?\s+(\d+\.?\d*)` at the head of `s` (the dimension
patterns of `_parse_model_request`). -/
def matchDimAt (name : List Char) (s : List Char) : Option (List Char) :=
  if startsWithL name s then
    let r := s.drop name.length
    let withOf : Option (List Char) :=
      let sp := r.takeWhile fun c => isSpaceChar c
      if sp.isEmpty then none
      else
        let r1 := r.drop sp.length
        if startsWithL "of".data r1 then
          let r2 := r1.drop 2
          let sp2 := r2.takeWhile fun c => isSpaceChar c
          if sp2.isEmpty then none
          else numGreedy (r2.drop sp2.length)
        else none
    match withOf with
    | some v => some v
    | none =>
      let sp := r.takeWhile fun c => isSpaceChar c
      if sp.isEmpty then none
      else numGreedy (r.drop sp.length)
  else none

/-- A collected parameter value: the Python float / bool / str the
extraction code stores (floats as exact rationals). -/
inductive PVal where
  | num (val : ℚ)
  | bool (val : Bool)
  | str (val : String)
deriving DecidableEq

/-- A needed-parameter spec `{"default": ..., "type": ...}` as built by
`WebCrawler._extract_parameters` and `_get_fallback_parameters`. -/
structure ParamInfo where
  default : String
  type : String
deriving DecidableEq

/-- Apostrophe, built by code point so string literals stay plain ASCII. -/
def sq : String := String.singleton (Char.ofNat 39)

/-- The unit-suffix patterns of `_parse_model_request` and
`_extract_parameters_from_message`, with their factors to millimeters
(25.4 written exactly as 127/5). -/
def unitFactors : List (List Char × ℚ) :=
  [("mm".data, 1), ("cm".data, 10), ("m".data, 1000), ("in".data, 127 / 5)]

/-- One context-lookback assignment of a unit-suffixed measurement.  `full`
selects the `_extract_parameters_from_message` variant, which adds the
(radius1, radius2) branches the `_parse_model_request` copy of this loop
lacks; both copies otherwise read identically in the source. -/
def assignDim (full : Bool) (ml : List Char) (acc : List (String × PVal))
    (entry : List Char × Nat) (factor : ℚ) : List (String × PVal) :=
  let value := numGroupVal entry.1 * factor
  let ctx := ctxAt ml entry.2
  if containsSub "width".data ctx || containsSub "wide".data ctx then
    dictSet acc "width" (PVal.num value)
  else if containsSub "height".data ctx || containsSub "high".data ctx
      || containsSub "tall".data ctx then
    dictSet acc "height" (PVal.num value)
  else if containsSub "depth".data ctx || containsSub "deep".data ctx then
    dictSet acc "depth" (PVal.num value)
  else if containsSub "radius".data ctx then
    dictSet acc "radius" (PVal.num value)
  else if containsSub "diameter".data ctx then
    dictSet acc "radius" (PVal.num (value / 2))
  else if full && (containsSub "radius1".data ctx || containsSub "base radius".data ctx) then
    dictSet acc "radius1" (PVal.num value)
  else if full && (containsSub "radius2".data ctx || containsSub "top radius".data ctx) then
    dictSet acc "radius2" (PVal.num value)
  else acc

/-- The measurements-with-units pass: for each unit pattern in order, for
each match in order, convert and assign by the 20-character lookback. -/
def unitPass (full : Bool) (ml : List Char) (ps : List (String × PVal)) :
    List (String × PVal) :=
  unitFactors.foldl
    (fun acc uf =>
      (finditerUnit uf.1 ml.length ml 0).foldl (fun a e => assignDim full ml a e uf.2) acc)
    ps

/-- The per-parameter default coercion inside the "use defaults" branch of
`_extract_parameters_from_message`: empty default skipped; "number" via
`float()` with `ValueError` swallowed; "boolean" via a case-insensitive
comparison with "true"; anything else passed through as the string. -/
def coerceDefault (info : ParamInfo) : Option PVal :=
  if info.default == "" then none
  else if info.type == "number" then
    match pyFloat info.default with
    | some q => some (PVal.num q)
    | none => none
  else if info.type == "boolean" then
    some (PVal.bool (lToStr (lowerL info.default.data) == "true"))
  else some (PVal.str info.default)

/-- One iteration of the "use defaults" loop. -/
def useDefaultsStep (acc : List (String × PVal)) (p : String × ParamInfo) :
    List (String × PVal) :=
  match coerceDefault p.2 with
  | some v => dictSet acc p.1 v
  | none => acc

/-- The whole "use defaults" branch over the needed-parameter map. -/
def useDefaultsExtract (needed : List (String × ParamInfo)) : List (String × PVal) :=
  needed.foldl useDefaultsStep []

/-- Embedding of `LLMService._extract_parameters_from_message`: the "use defaults"
shortcut, then the three per-parameter patterns (first match wins), then
the unit-suffixed-measurement pass which may overwrite dimension keys. -/
def extract_parameters_from_message (message : String)
    (needed_params : List (String × ParamInfo)) : List (String × PVal) :=
  let ml := lowerL message.data
  if containsSub "use default".data ml || containsSub "default".data ml then
    useDefaultsExtract needed_params
  else
    let ps := needed_params.foldl
      (fun acc p =>
        match searchPos (matchP1At p.1.data) ml with
        | some n => dictSet acc p.1 (PVal.num (numGroupVal n))
        | none =>
          match searchPos (matchP2At p.1.data) ml with
          | some n => dictSet acc p.1 (PVal.num (numGroupVal n))
          | none =>
            match searchPos (matchP3At p.1.data) ml with
            | some n => dictSet acc p.1 (PVal.num (numGroupVal n))
            | none => acc)
      []
    unitPass true ml ps

/-- The "action" vocabulary of `_is_model_request`. -/
def model_keywords : List String :=
  ["create", "generate", "make", "build", "design", "model",
   "3d model", "3d object", "3d print", "openscad"]

/-- The "object" vocabulary of `_is_model_request`. -/
def object_keywords : List String :=
  ["cube", "box", "sphere", "ball", "cylinder", "tube", "cone",
   "pyramid", "object", "shape", "gear", "bracket", "holder",
   "stand", "case", "container", "part"]

/-- Embedding of `LLMService._is_model_request`: case-insensitive substring membership of
at least one action keyword and at least one object keyword. -/
def is_model_request (message : String) : Bool :=
  let ml := lowerL message.data
  (model_keywords.any fun k => containsSub k.data ml) &&
  (object_keywords.any fun k => containsSub k.data ml)

/-- Result of `_parse_model_request`. -/
structure ModelInfo where
  type : String
  parameters : List (String × PVal)
deriving DecidableEq

/-- Embedding of `LLMService._parse_model_request`: shape keyword chain (default cube),
the five dimension patterns (diameter halved into radius), then the
unit-suffix pass (the variant without radius1/radius2 branches). -/
def parse_model_request (message : String) : ModelInfo :=
  let ml := lowerL message.data
  let mtype :=
    if containsSub "sphere".data ml || containsSub "ball".data ml then "sphere"
    else if containsSub "cylinder".data ml || containsSub "tube".data ml then "cylinder"
    else if containsSub "cone".data ml then "cone"
    else if containsSub "pyramid".data ml then "pyramid"
    else if containsSub "gear".data ml then "gear"
    else if containsSub "box".data ml || containsSub "cube".data ml then "cube"
    else "cube"
  let ps : List (String × PVal) := []
  let ps :=
    match searchPos (matchDimAt "width".data) ml with
    | some n => dictSet ps "width" (PVal.num (numGroupVal n))
    | none => ps
  let ps :=
    match searchPos (matchDimAt "height".data) ml with
    | some n => dictSet ps "height" (PVal.num (numGroupVal n))
    | none => ps
  let ps :=
    match searchPos (matchDimAt "depth".data) ml with
    | some n => dictSet ps "depth" (PVal.num (numGroupVal n))
    | none => ps
  let ps :=
    match searchPos (matchDimAt "radius".data) ml with
    | some n => dictSet ps "radius" (PVal.num (numGroupVal n))
    | none => ps
  let ps :=
    match searchPos (matchDimAt "diameter".data) ml with
    | some n => dictSet ps "radius" (PVal.num (numGroupVal n / 2))
    | none => ps
  ⟨mtype, unitPass false ml ps⟩

/-- Embedding of `LLMService._get_fallback_parameters`. -/
def fallback_parameters (model_type : String) : List (String × ParamInfo) :=
  if model_type == "cube" || model_type == "box" then
    [("width", ⟨"10", "number"⟩), ("height", ⟨"10", "number"⟩), ("depth", ⟨"10", "number"⟩)]
  else if model_type == "sphere" || model_type == "ball" then
    [("radius", ⟨"10", "number"⟩)]
  else if model_type == "cylinder" || model_type == "tube" then
    [("radius", ⟨"5", "number"⟩), ("height", ⟨"20", "number"⟩)]
  else if model_type == "cone" then
    [("radius1", ⟨"10", "number"⟩), ("radius2", ⟨"0", "number"⟩), ("height", ⟨"20", "number"⟩)]
  else [("size", ⟨"10", "number"⟩)]

/-- Embedding of `LLMService._get_missing_parameters`: needed entries whose key is not
yet collected, in needed order. -/
def missing_parameters (needed : List (String × ParamInfo))
    (collected : List (String × PVal)) : List (String × ParamInfo) :=
  needed.foldl
    (fun acc p => if (lookupD collected p.1).isSome then acc else dictSet acc p.1 p.2)
    []

/-- One bullet line of `_create_parameter_request`. -/
def paramLine (p : String × ParamInfo) : String :=
  let d := p.2.default
  if p.1 == "width" then "- What width would you like? (default is " ++ d ++ ")\n"
  else if p.1 == "height" then "- What height would you like? (default is " ++ d ++ ")\n"
  else if p.1 == "depth" then "- What depth would you like? (default is " ++ d ++ ")\n"
  else if p.1 == "radius" then "- What radius would you like? (default is " ++ d ++ ")\n"
  else if p.1 == "radius1" then "- What base radius would you like? (default is " ++ d ++ ")\n"
  else if p.1 == "radius2" then "- What top radius would you like? (default is " ++ d ++ ")\n"
  else "- What " ++ p.1 ++ " would you like? (default is " ++ d ++ ")\n"

/-- Embedding of `LLMService._create_parameter_request`. -/
def create_parameter_request (missing_params : List (String × ParamInfo))
    (model_type : String) : String :=
  if missing_params.isEmpty then
    "I have all the information I need to create your 3D model."
  else
    let base := "To create your " ++ model_type ++ ", I need a few more details.\n\n"
    let body := missing_params.foldl (fun m p => m ++ paramLine p) base
    body ++ "\nYou can specify these all at once or one at a time. Or just say " ++
      sq ++ "use defaults" ++ sq ++ " to use the default values."

/-- The reserved short identifiers `WebCrawler._extract_parameters` skips
for top-level variable assignments. -/
def reservedNames : List String := ["i", "j", "x", "y", "z", "temp", "tmp", "result"]

/-- Parameter-type inference shared (verbatim-duplicated in the source) by
the assignment and module passes: boolean literal, quoted string, array
bracket, else number. -/
def inferType (v : String) : String :=
  let vl := lToStr (lowerL v.data)
  if vl == "true" || vl == "false" then "boolean"
  else if startsWithL [Char.ofNat 34] v.data || startsWithL [Char.ofNat 39] v.data then "string"
  else if containsSub ['['] v.data then "array"
  else "number"

/-- Match `(\w+)\s*=\s*([^;]+);` at the head of `s`: word run, spaces, `=`,
at least one non-semicolon character up to the next `;`.  Returns the name,
the stripped value group and the rest after the semicolon. -/
def matchVarAssign (s : List Char) : Option (String × String × List Char) :=
  let w := s.takeWhile fun c => isWordChar c
  if w.isEmpty then none
  else
    let r := (s.drop w.length).dropWhile fun c => isSpaceChar c
    match r with
    | '=' :: r2 =>
      let v := r2.takeWhile fun c => !(c == ';')
      if v.isEmpty then none
      else
        match r2.drop v.length with
        | ';' :: rest => some (lToStr w, lToStr (stripL v), rest)
        | _ => none
    | _ => none

/-- The variable-assignment `re.finditer` loop of
`WebCrawler._extract_parameters` (fuel = remaining length). -/
def varAssignScan : Nat → List Char → List (String × ParamInfo) → List (String × ParamInfo)
  | 0, _, acc => acc
  | _ + 1, [], acc => acc
  | fuel + 1, c :: rest, acc =>
    match matchVarAssign (c :: rest) with
    | some (name, value, after) =>
      let acc2 :=
        if reservedNames.contains name then acc
        else dictSet acc name ⟨value, inferType value⟩
      varAssignScan fuel after acc2
    | none => varAssignScan fuel rest acc

/-- Match `module\s+\w+\s*\((.*?)\)` (DOTALL, non-greedy) at the head of
`s`: the captured argument text runs to the first closing parenthesis.
Returns (captured group, rest after the closing parenthesis). -/
def matchModuleAt (s : List Char) : Option (List Char × List Char) :=
  if startsWithL "module".data s then
    let r := s.drop 6
    let sp := r.takeWhile fun c => isSpaceChar c
    if sp.isEmpty then none
    else
      let r1 := r.drop sp.length
      let w := r1.takeWhile fun c => isWordChar c
      if w.isEmpty then none
      else
        let r2 := (r1.drop w.length).dropWhile fun c => isSpaceChar c
        match r2 with
        | '(' :: r3 =>
          let inner := r3.takeWhile fun c => !(c == ')')
          match r3.drop inner.length with
          | ')' :: rest => some (inner, rest)
          | _ => none
        | _ => none
  else none

/-- The comma split of a module signature with the nesting-depth counter
over parentheses and brackets, appending each item stripped, exactly as the
source loop does. -/
def splitDepth0 : List Char → List Char → Int → List String → List String
  | [], current, _, items =>
    if current.isEmpty then items else items ++ [lToStr (stripL current.reverse)]
  | c :: rest, current, level, items =>
    if c == '(' || c == '[' then splitDepth0 rest (c :: current) (level + 1) items
    else if c == ')' || c == ']' then splitDepth0 rest (c :: current) (level - 1) items
    else if c == ',' && level == 0 then
      splitDepth0 rest [] level (items ++ [lToStr (stripL current.reverse)])
    else splitDepth0 rest (c :: current) level items

/-- Python `param.split` at the first equals sign: the text before it, and the rest
after it when one exists. -/
def splitEqOnce (s : List Char) : List Char × Option (List Char) :=
  let before := s.takeWhile fun c => !(c == '=')
  if before.length == s.length then (s, none)
  else (before, some (s.drop (before.length + 1)))

/-- Processing of one module-signature parameter item: note the source does
NOT apply the reserved-name blocklist here. -/
def moduleItemStep (acc : List (String × ParamInfo)) (item : String) :
    List (String × ParamInfo) :=
  let nv := splitEqOnce item.data
  let name := lToStr (stripL nv.1)
  if name == "" then acc
  else
    match nv.2 with
    | some v =>
      let value := lToStr (stripL v)
      dictSet acc name ⟨value, inferType value⟩
    | none => dictSet acc name ⟨"", "unknown"⟩

/-- The module-signature `re.finditer` loop of
`WebCrawler._extract_parameters` (fuel = remaining length). -/
def moduleScan : Nat → List Char → List (String × ParamInfo) → List (String × ParamInfo)
  | 0, _, acc => acc
  | _ + 1, [], acc => acc
  | fuel + 1, c :: rest, acc =>
    match matchModuleAt (c :: rest) with
    | some (inner, after) =>
      let pstr := stripL inner
      let acc2 :=
        if pstr.isEmpty then acc
        else (splitDepth0 pstr [] 0 []).foldl moduleItemStep acc
      moduleScan fuel after acc2
    | none => moduleScan fuel rest acc

/-- Embedding of `WebCrawler._extract_parameters`: the assignment pass filling the dict,
then the module-signature pass over the same dict. -/
def wc_extract_parameters (code : String) : List (String × ParamInfo) :=
  let cs := code.data
  moduleScan cs.length cs (varAssignScan cs.length cs [])

/-- A cached template `{code, source, parameters}`. -/
structure TemplateData where
  code : String
  source : String
  parameters : List (String × ParamInfo)
deriving DecidableEq

/-- Python `query.lower().strip()`, the cache key of `search_for_template`. -/
def normQuery (query : String) : String := lToStr (stripL (lowerL query.data))

/-- Embedding of `WebCrawler.search_for_template`.  The whole external pipeline — the
web search (`_search_web`), the per-result and fallback-site page fetches
and `_extract_code_from_page` — is abstracted as one `oracle` call
returning the first accepted (code, source URL) pair, or `none` on a total
miss; the third component counts how many times that external pipeline was
consulted (0 on a cache hit, 1 otherwise).  Parameters of a found template
are derived by the real `wc_extract_parameters`, and only successful
lookups are stored in the cache, exactly as in the source. -/
def search_for_template (oracle : String → Option (String × String))
    (cache : List (String × TemplateData)) (query : String) :
    TemplateData × List (String × TemplateData) × Nat :=
  match lookupD cache (normQuery query) with
  | some td => (td, cache, 0)
  | none =>
    match oracle query with
    | some cs =>
      if cs.1 == "" then (⟨"", "", []⟩, cache, 1)
      else
        let td : TemplateData := ⟨cs.1, cs.2, wc_extract_parameters cs.1⟩
        (td, dictSet cache (normQuery query) td, 1)
    | none => (⟨"", "", []⟩, cache, 1)

/-- Match `(NAME\s*=\s*)([^;]+)(;)` at the head of `s`.  Returns group 1
(name, spaces, `=`, the spaces the greedy `\s*` keeps) and the rest after
the semicolon; when everything between `=` and `;` is whitespace the
engine backtracks one space into group 2. -/
def matchSubAssign (name : List Char) (s : List Char) : Option (List Char × List Char) :=
  if startsWithL name s then
    let r := s.drop name.length
    let sp1 := r.takeWhile fun c => isSpaceChar c
    match r.drop sp1.length with
    | '=' :: r2 =>
      let sp2 := r2.takeWhile fun c => isSpaceChar c
      let r3 := r2.drop sp2.length
      match r3 with
      | [] => none
      | ';' :: rest =>
        if sp2.isEmpty then none
        else some (name ++ sp1 ++ '=' :: sp2.dropLast, rest)
      | _ =>
        let v := r3.takeWhile fun c => !(c == ';')
        match r3.drop v.length with
        | ';' :: rest => some (name ++ sp1 ++ '=' :: sp2, rest)
        | _ => none
    | _ => none
  else none

/-- Python parsing of the replacement template the source builds as
`f"\1{param_value}\3"` (semantics of `re._parser.parse_template` at this
call site, with VALUE the rendered `str(param_value)`, backslash-free for
every value this program produces).  After the backslash, the digit 1 is
read together with the digits VALUE begins with:
- if VALUE starts with two octal digits, `\1ab` is an octal ESCAPE: the
  per-match replacement is `chr(0o1ab)` followed by the rest of VALUE and
  group 3, and group 1 is swallowed (the returned flag is `false`);
- if VALUE starts with any other digit, the template holds the group
  reference `1x` with `1x > 3` groups, and `re.sub` raises `re.error`
  (invalid group reference) when the template is parsed, before any
  matching, even when the pattern has no match in the subject;
- otherwise the replacement is group 1, VALUE verbatim, group 3 (the
  returned flag is `true`).
Returns the flag (keep group 1?) and the literal text to emit before the
group-3 semicolon. -/
def parseReplTemplate (value : List Char) : Except Unit (Bool × List Char) :=
  match value with
  | c1 :: cs =>
    if isDigitChar c1 then
      match cs with
      | c2 :: rest =>
        if ('0' ≤ c1 && c1 ≤ '7') && ('0' ≤ c2 && c2 ≤ '7') then
          Except.ok (false, Char.ofNat (64 + (c1.toNat - 48) * 8 + (c2.toNat - 48)) :: rest)
        else Except.error ()
      | [] => Except.error ()
    else Except.ok (true, value)
  | [] => Except.ok (true, [])

/-- One `re.sub` pass for the pattern `(NAME\s*=\s*)([^;]+)(;)` with a
successfully parsed replacement template `repl` (keep-group-1 flag and
literal text): every non-overlapping match is rewritten
(fuel = remaining length). -/
def subAssignScan (name : List Char) (repl : Bool × List Char) : Nat → List Char → List Char
  | 0, s => s
  | _ + 1, [] => []
  | fuel + 1, c :: rest =>
    match matchSubAssign name (c :: rest) with
    | some (g1, after) =>
      (if repl.1 then g1 else []) ++ repl.2 ++ ';' :: subAssignScan name repl fuel after
    | none => c :: subAssignScan name repl fuel rest

/-- Embedding of `LLMService._apply_parameters`: one `re.sub` pass per
supplied parameter, in dict order.  Values are taken already rendered the
way the source's f-string renders them (`str(param_value)`).  Each pass
first parses the replacement template `f"\1{value}\3"`; a digit-leading
value (every non-negative numeric parameter) whose first two characters
are not both octal digits makes that parse raise `re.error`, which the
function propagates (`Except.error`), abandoning the loop exactly as the
uncaught Python exception does. -/
def apply_parameters_loop : List (String × String) → String → Except Unit String
  | [], modified => Except.ok modified
  | p :: rest, modified =>
    match parseReplTemplate p.2.data with
    | Except.error e => Except.error e
    | Except.ok repl =>
      apply_parameters_loop rest
        (lToStr (subAssignScan p.1.data repl modified.data.length modified.data))

/-- Embedding of `LLMService._apply_parameters` (see
`apply_parameters_loop`): raises `re.error` for digit-leading values, else
rewrites every matching assignment. -/
def apply_parameters (code : String) (parameters : List (String × String)) :
    Except Unit String :=
  apply_parameters_loop parameters code

/-- Split `s` at the first occurrence of three backticks; `none` when there
is none (fuel = remaining length). -/
def findTicks : Nat → List Char → Option (List Char × List Char)
  | 0, _ => none
  | _ + 1, [] => none
  | fuel + 1, c :: rest =>
    if startsWithL [Char.ofNat 96, Char.ofNat 96, Char.ofNat 96] (c :: rest) then
      some ([], rest.drop 2)
    else
      match findTicks fuel rest with
      | some br => some (c :: br.1, br.2)
      | none => none

/-- Semantics of `re.findall` for the fenced-code-block pattern: three backticks, an
optional `openscad` tag, a non-greedy body up to the next three backticks. -/
def fencedBlocks : Nat → List Char → List String
  | 0, _ => []
  | _ + 1, [] => []
  | fuel + 1, c :: rest =>
    if startsWithL [Char.ofNat 96, Char.ofNat 96, Char.ofNat 96] (c :: rest) then
      let r := rest.drop 2
      let r2 := if startsWithL "openscad".data r then r.drop 8 else r
      match findTicks r2.length r2 with
      | some br => lToStr br.1 :: fencedBlocks fuel br.2
      | none => []
    else fencedBlocks fuel rest

/-- The narrative line openers `_extract_code` skips (note the bare "I"
alternative makes every line starting with `I` match). -/
def narrativeOpeners : List String :=
  ["Here" ++ sq ++ "s", "This", "The", "I" ++ sq ++ "ve", "I" ++ sq ++ "ll", "I",
   "As you", "Now", "Note:"]

/-- The code-looking-line filter of `_extract_code`: skip narrative
openers; keep lines holding code punctuation (entering code mode); in code
mode also keep subsequent non-blank lines. -/
def lineFilter (lines : List String) : List String :=
  (lines.foldl
    (fun st line =>
      if narrativeOpeners.any (fun p => startsWithL p.data line.data) then st
      else if containsSub ['('] line.data || containsSub [')'] line.data
          || containsSub ['\x7b'] line.data || containsSub ['\x7d'] line.data
          || containsSub ['='] line.data || containsSub "//".data line.data then
        (true, st.2 ++ [line])
      else if st.1 && !(lToStr (stripL line.data) == "") then (st.1, st.2 ++ [line])
      else st)
    ((false, []) : Bool × List String)).2

/-- Embedding of `LLMService._extract_code`: join fenced code blocks when any exist,
else the line filter over the raw response. -/
def extract_code (text : String) : String :=
  let blocks := fencedBlocks text.data.length text.data
  if !blocks.isEmpty then
    String.intercalate "\n\n" (blocks.map fun b => lToStr (stripL b.data))
  else
    lToStr (stripL (String.intercalate "\n" (lineFilter (text.splitOn "\n"))).data)

/-- Embedding of `LLMService._fallback_generation`: the deterministic static templates.
Parameter values arrive already rendered as the f-string renders them. -/
def fallback_generation (prompt : String) (parameters : List (String × String)) : String :=
  let pl := lowerL prompt.data
  if containsSub "cube".data pl || containsSub "box".data pl then
    let width := (lookupD parameters "width").getD "10"
    let height := (lookupD parameters "height").getD "10"
    let depth := (lookupD parameters "depth").getD "10"
    "\n// Customizable Cube\n// Generated by 3D Model Generator\n\n// Parameters\nwidth = "
      ++ width ++ ";  // Width of the cube\nheight = " ++ height
      ++ ";  // Height of the cube\ndepth = " ++ depth
      ++ ";  // Depth of the cube\n\n// Main module\nmodule custom_cube(w, h, d) \x7b\n    cube([w, h, d]);\n\x7d\n\n// Generate the cube\ncustom_cube(width, height, depth);\n"
  else if containsSub "sphere".data pl || containsSub "ball".data pl then
    let radius := (lookupD parameters "radius").getD "10"
    "\n// Customizable Sphere\n// Generated by 3D Model Generator\n\n// Parameters\nradius = "
      ++ radius
      ++ ";  // Radius of the sphere\n\n// Main module\nmodule custom_sphere(r) \x7b\n    sphere(r=r);\n\x7d\n\n// Generate the sphere\ncustom_sphere(radius);\n"
  else if containsSub "cylinder".data pl || containsSub "tube".data pl then
    let height := (lookupD parameters "height").getD "20"
    let radius := (lookupD parameters "radius").getD "5"
    "\n// Customizable Cylinder\n// Generated by 3D Model Generator\n\n// Parameters\nheight = "
      ++ height ++ ";  // Height of the cylinder\nradius = " ++ radius
      ++ ";  // Radius of the cylinder\n\n// Main module\nmodule custom_cylinder(h, r) \x7b\n    cylinder(h=h, r=r);\n\x7d\n\n// Generate the cylinder\ncustom_cylinder(height, radius);\n"
  else if containsSub "cone".data pl then
    let height := (lookupD parameters "height").getD "20"
    let radius1 := (lookupD parameters "radius1").getD "10"
    let radius2 := (lookupD parameters "radius2").getD "0"
    "\n// Customizable Cone\n// Generated by 3D Model Generator\n\n// Parameters\nheight = "
      ++ height ++ ";  // Height of the cone\nradius1 = " ++ radius1
      ++ ";  // Radius of the base\nradius2 = " ++ radius2
      ++ ";  // Radius of the top (0 for a pointed cone)\n\n// Main module\nmodule custom_cone(h, r1, r2) \x7b\n    cylinder(h=h, r1=r1, r2=r2);\n\x7d\n\n// Generate the cone\ncustom_cone(height, radius1, radius2);\n"
  else
    let size := (lookupD parameters "size").getD "10"
    "\n// Default 3D Model\n// Generated by 3D Model Generator\n\n// Parameters\nsize = "
      ++ size
      ++ ";  // Size of the object\n\n// Main module\nmodule default_object(size) \x7b\n    cube(size);\n\x7d\n\n// Generate the object\ndefault_object(size);\n"

/-- The fixed OpenSCAD-coder persona text (opaque to every claim; fed to
the text-completion backend only). -/
def openscad_coder_persona : String :=
  "\n        You are an expert in OpenSCAD programming. Your task is to create detailed and well-commented OpenSCAD code\n        based on user requirements. You follow best practices and create parametric designs whenever possible.\n        \n        OpenSCAD is a programming language for creating solid 3D CAD models. It uses a declarative approach\n        where you describe the 3D object you want to create, rather than describing the steps to create it.\n        \n        Follow these guidelines:\n        1. Always include clear comments in your code\n        2. Use variables for all key parameters\n        3. Create modular designs with reusable modules\n        4. Include sensible default values for parameters\n        5. Return only the OpenSCAD code without explanations or markdown\n        "

/-- Embedding of `LLMService._format_prompt_for_instruct`. -/
def format_prompt_for_instruct (system_prompt user_prompt : String) : String :=
  "<s>[INST] " ++ system_prompt ++ "\n\n" ++ user_prompt ++ " [/INST]"

/-- A synthesis result `{code, source, parameters}` (the artifact paths the
external persistence collaborator merges in are out of the claims's scope). -/
structure GenResult where
  code : String
  source : String
  parameters : List (String × ParamInfo)
deriving DecidableEq

/-- The `except` branch of `generate_code`: any exception raised inside
the try block (in particular `re.error` from `_apply_parameters`) is
caught and converted to the static fallback with the "due to error"
source label. -/
def generate_code_error_fallback (prompt : String)
    (parameters : List (String × String)) : GenResult :=
  let fb := fallback_generation prompt parameters
  ⟨fb, "Generated by fallback system due to error", wc_extract_parameters fb⟩

/-- Embedding of `LLMService.generate_code`: template lookup first (applying supplied
parameters when the dict is non-empty); with no template and the model
unloaded, the fallback; with the model loaded, one `gen_text` completion
whose extracted code is used when non-blank, else the fallback.  An
`re.error` raised by `_apply_parameters` is caught by the function's
catch-all handler, which returns the static fallback labeled
"Generated by fallback system due to error".  The crawler cache rides
along; the artifact-persistence side effect (`media_service.save_model`)
is the external collaborator and is omitted. -/
def generate_code (oracle : String → Option (String × String))
    (cache : List (String × TemplateData)) (model_loaded : Bool)
    (gen_text : String → String) (prompt : String)
    (parameters : List (String × String)) : GenResult × List (String × TemplateData) :=
  let str := search_for_template oracle cache prompt
  let tr := str.1
  let cache2 := str.2.1
  if !(tr.code == "") then
    if !parameters.isEmpty then
      match apply_parameters tr.code parameters with
      | Except.ok code => (⟨code, tr.source, tr.parameters⟩, cache2)
      | Except.error _ => (generate_code_error_fallback prompt parameters, cache2)
    else (⟨tr.code, tr.source, tr.parameters⟩, cache2)
  else if !model_loaded then
    let fb := fallback_generation prompt parameters
    (⟨fb, "Generated by fallback system", wc_extract_parameters fb⟩, cache2)
  else
    let formatted := format_prompt_for_instruct openscad_coder_persona
      ("Create OpenSCAD code for: " ++ prompt)
    let response := gen_text formatted
    let code := extract_code response
    if !(lToStr (stripL code.data) == "") then
      match (if !parameters.isEmpty then apply_parameters code parameters
             else Except.ok code) with
      | Except.ok code2 => (⟨code2, "Generated by Mistral", wc_extract_parameters code2⟩, cache2)
      | Except.error _ => (generate_code_error_fallback prompt parameters, cache2)
    else
      let fb := fallback_generation prompt parameters
      (⟨fb, "Generated by fallback system", wc_extract_parameters fb⟩, cache2)

/-- The fixed customer-support persona text (opaque to every claim). -/
def customer_service_persona : String :=
  "\n        You are a helpful customer support assistant for a 3D model generation service named "
    ++ sq ++ "3D Model Generator" ++ sq
    ++ ".\n        Your goal is to help users understand how to use the service, explain features, and guide them through\n        any issues they might encounter.\n        \n        Key features of the service:\n        1. Generate 3D models using OpenSCAD code\n        2. Convert images to 3D models using AI\n        3. Download models in various formats (STL, OBJ)\n        4. Token-based system for model generation\n        \n        When a user wants to create a 3D model, ask them specific questions about what they want to create, \n        including dimensions and other parameters that would be needed to generate the model.\n        \n        Be polite, concise, and helpful. If you don"
    ++ sq
    ++ "t know an answer, don"
    ++ sq
    ++ "t make things up.\n        Always maintain a professional but friendly tone.\n        "

/-- The fixed unavailability text returned when the model is not loaded. -/
def unavailable_message : String :=
  "I" ++ sq ++ "m sorry, but the service is currently unavailable. Please try again later."

/-- The fixed apology text of the catch-all exception handler. -/
def apology_message : String :=
  "I" ++ sq ++ "m sorry, I" ++ sq ++ "m experiencing technical difficulties. Please try again later."

/-- The fixed text accompanying a successful synthesis. -/
def success_message : String :=
  "Here" ++ sq
    ++ "s your OpenSCAD model! You can copy this code into OpenSCAD to view and customize it further."

/-- One user's conversation state, as initialised and mutated by
`chat_with_customer` (`current_model` starts as the empty string standing
for Python's `None`, which the modeled flows never read before writing). -/
structure UserState where
  chat_history : List (String × String)
  current_state : String
  current_model : String
  parameters_needed : List (String × ParamInfo)
  parameters_collected : List (String × PVal)
deriving DecidableEq

/-- The response dictionary of one `chat_with_customer` call (the
preview-path / model-id keys filled by the external persistence
collaborator are out of the claims's scope). -/
structure ChatResult where
  text : String
  code : Option String
  source : Option String
  parameters : Option (List (String × ParamInfo))
deriving DecidableEq

/-- Python `history[-5:]`. -/
def lastN {α : Type} (n : Nat) (l : List α) : List α := l.drop (l.length - n)

/-- The chat-history context string of the general-conversation branch. -/
def historyText (hist : List (String × String)) : String :=
  (lastN 5 hist).foldl
    (fun acc m => acc ++ lToStr (upperL m.1.data) ++ ": " ++ m.2 ++ "\n\n") ""

/-- Python `re.sub` of the leading ASSISTANT tag, then strip. -/
def stripAssistantTag (response : String) : String :=
  let r :=
    if startsWithL "ASSISTANT:".data response.data then
      (response.data.drop 10).dropWhile fun c => isSpaceChar c
    else response.data
  lToStr (stripL r)

/-- Embedding of `LLMService.chat_with_customer`, one inbound message.  The call to
`self.generate_code` (followed by artifact persistence) is abstracted as
the fallible `synth` argument — the only call site in the handled block
that can realistically raise — so that the source's catch-all `except`
can be modeled: on `Except.error` the handler returns the fixed apology
and performs NO state reset, leaving whatever `current_state` was already
assigned (in particular "generating").  `gen_text` abstracts
`_generate_text`, which swallows its own exceptions and returns a string.
Everything else (classification, parsing, template search, slot
extraction, prompt construction, history appends) is the embedded code. -/
def chatStep (model_loaded : Bool) (oracle : String → Option (String × String))
    (synth : String → List (String × PVal) → Except Unit GenResult)
    (gen_text : String → String) (cache : List (String × TemplateData))
    (user_message : String) (st : UserState) :
    ChatResult × UserState × List (String × TemplateData) :=
  let hist1 := st.chat_history ++ [("user", user_message)]
  if !model_loaded then
    (⟨unavailable_message, none, none, none⟩,
     { st with chat_history := hist1 ++ [("assistant", unavailable_message)] }, cache)
  else if st.current_state == "general" && is_model_request user_message then
    let info := parse_model_request user_message
    let str := search_for_template oracle cache info.type
    let needed := if !(str.1.code == "") then str.1.parameters else fallback_parameters info.type
    let missing := missing_parameters needed info.parameters
    if !missing.isEmpty then
      let resp := create_parameter_request missing info.type
      (⟨resp, none, none, none⟩,
       { st with current_model := info.type, current_state := "collecting_parameters",
                 parameters_needed := needed, parameters_collected := info.parameters,
                 chat_history := hist1 ++ [("assistant", resp)] }, str.2.1)
    else
      match synth info.type info.parameters with
      | Except.ok result =>
        (⟨success_message, some result.code, some result.source, some result.parameters⟩,
         { st with current_model := info.type, current_state := "general",
                   parameters_needed := needed, parameters_collected := info.parameters,
                   chat_history := hist1 ++ [("assistant", success_message)] }, str.2.1)
      | Except.error _ =>
        (⟨apology_message, none, none, none⟩,
         { st with current_model := info.type, current_state := "generating",
                   parameters_needed := needed, parameters_collected := info.parameters,
                   chat_history := hist1 ++ [("assistant", apology_message)] }, str.2.1)
  else if st.current_state == "collecting_parameters" then
    let newp := extract_parameters_from_message user_message st.parameters_needed
    let col := dictUpdate st.parameters_collected newp
    let missing := missing_parameters st.parameters_needed col
    if !missing.isEmpty then
      let resp := create_parameter_request missing st.current_model
      (⟨resp, none, none, none⟩,
       { st with parameters_collected := col,
                 chat_history := hist1 ++ [("assistant", resp)] }, cache)
    else
      match synth st.current_model col with
      | Except.ok result =>
        (⟨success_message, some result.code, some result.source, some result.parameters⟩,
         { st with current_state := "general", parameters_collected := col,
                   chat_history := hist1 ++ [("assistant", success_message)] }, cache)
      | Except.error _ =>
        (⟨apology_message, none, none, none⟩,
         { st with current_state := "generating", parameters_collected := col,
                   chat_history := hist1 ++ [("assistant", apology_message)] }, cache)
  else
    let htext := historyText hist1
    let formatted :=
      if !(htext == "") then
        format_prompt_for_instruct customer_service_persona ("Chat history:\n" ++ htext)
      else
        format_prompt_for_instruct customer_service_persona ("USER: " ++ user_message)
    let resp := stripAssistantTag (gen_text formatted)
    (⟨resp, none, none, none⟩,
     { st with chat_history := hist1 ++ [("assistant", resp)] }, cache)

/-! ## Association-list lemmas -/

theorem lookupD_append {α : Type} (m l : List (String × α)) (key : String) :
    lookupD (m ++ l) key =
      match lookupD m key with
      | some v => some v
      | none => lookupD l key := by
  induction m with
  | nil => simp [lookupD]
  | cons h t ih =>
    obtain ⟨k1, v1⟩ := h
    by_cases hk : k1 = key <;> simp [lookupD, hk, ih]

theorem lookupD_map_set_ne {α : Type} (m : List (String × α)) (k key : String) (v : α)
    (hne : k ≠ key) :
    lookupD (m.map fun p => if p.1 = k then (k, v) else p) key = lookupD m key := by
  induction m with
  | nil => simp [lookupD]
  | cons h t ih =>
    obtain ⟨k1, v1⟩ := h
    by_cases h1 : k1 = k
    · subst h1
      have hh : (if (k1, v1).1 = k1 then (k1, v) else (k1, v1)) = (k1, v) := by simp
      rw [List.map_cons, hh]
      simp [lookupD, hne, ih]
    · have hh : (if (k1, v1).1 = k then (k, v) else (k1, v1)) = (k1, v1) := by simp [h1]
      rw [List.map_cons, hh]
      simp [lookupD, ih]

theorem lookupD_map_set_self {α : Type} (m : List (String × α)) (k : String) (v : α)
    (h : (lookupD m k).isSome = true) :
    lookupD (m.map fun p => if p.1 = k then (k, v) else p) k = some v := by
  induction m with
  | nil => simp [lookupD] at h
  | cons hd t ih =>
    obtain ⟨k1, v1⟩ := hd
    by_cases h1 : k1 = k
    · subst h1
      have hh : (if (k1, v1).1 = k1 then (k1, v) else (k1, v1)) = (k1, v) := by simp
      rw [List.map_cons, hh]
      simp [lookupD]
    · simp only [lookupD, h1, if_false] at h
      have hh : (if (k1, v1).1 = k then (k, v) else (k1, v1)) = (k1, v1) := by simp [h1]
      rw [List.map_cons, hh]
      simp [lookupD, h1, ih h]

theorem lookupD_dictSet {α : Type} (m : List (String × α)) (k key : String) (v : α) :
    lookupD (dictSet m k v) key = if k = key then some v else lookupD m key := by
  unfold dictSet
  by_cases hs : (lookupD m k).isSome = true
  · rw [if_pos hs]
    by_cases hk : k = key
    · subst hk
      rw [lookupD_map_set_self m k v hs]
      simp
    · rw [lookupD_map_set_ne m k key v hk, if_neg hk]
  · rw [if_neg hs]
    rw [lookupD_append]
    by_cases hk : k = key
    · subst hk
      have hnone : lookupD m k = none := by
        cases hl : lookupD m k with
        | none => rfl
        | some w => rw [hl] at hs; simp at hs
      simp [hnone, lookupD]
    · cases hl : lookupD m key with
      | none => simp [hl, lookupD, hk]
      | some w => simp [hl, hk]

theorem useDefaults_fold_not_mem (l : List (String × ParamInfo))
    (acc : List (String × PVal)) (name : String) (h : name ∉ l.map Prod.fst) :
    lookupD (l.foldl useDefaultsStep acc) name = lookupD acc name := by
  induction l generalizing acc with
  | nil => rfl
  | cons hd t ih =>
    obtain ⟨n0, i0⟩ := hd
    have hn0 : n0 ≠ name := by
      intro e; exact h (by simp [e])
    have ht : name ∉ t.map Prod.fst := by
      intro e; exact h (by simp [e])
    rw [List.foldl_cons, ih _ ht]
    unfold useDefaultsStep
    cases coerceDefault (n0, i0).2 with
    | none => rfl
    | some v => rw [lookupD_dictSet, if_neg hn0]

theorem useDefaults_fold_mem (l : List (String × ParamInfo))
    (acc : List (String × PVal)) (name : String) (info : ParamInfo)
    (hmem : (name, info) ∈ l) (hnd : (l.map Prod.fst).Nodup)
    (hacc : lookupD acc name = none) :
    lookupD (l.foldl useDefaultsStep acc) name = coerceDefault info := by
  induction l generalizing acc with
  | nil => cases hmem
  | cons hd t ih =>
    obtain ⟨n0, i0⟩ := hd
    have hnd' : (n0 :: t.map Prod.fst).Nodup := by simpa using hnd
    obtain ⟨hhead, htail⟩ := List.nodup_cons.1 hnd'
    rcases List.mem_cons.1 hmem with he | ht
    · injection he with e1 e2
      subst e1; subst e2
      rw [List.foldl_cons, useDefaults_fold_not_mem t _ _ hhead]
      cases hcd : coerceDefault info with
      | none =>
        have hs : useDefaultsStep acc (name, info) = acc := by
          simp [useDefaultsStep, hcd]
        rw [hs, hacc]
      | some v =>
        have hs : useDefaultsStep acc (name, info) = dictSet acc name v := by
          simp [useDefaultsStep, hcd]
        rw [hs, lookupD_dictSet]
        simp
    · have hn0 : n0 ≠ name := by
        intro e
        apply hhead
        rw [e]
        exact List.mem_map_of_mem Prod.fst ht
      have hacc2 : lookupD (useDefaultsStep acc (n0, i0)) name = none := by
        cases hcd : coerceDefault i0 with
        | none =>
          have hs : useDefaultsStep acc (n0, i0) = acc := by
            simp [useDefaultsStep, hcd]
          rw [hs]; exact hacc
        | some v =>
          have hs : useDefaultsStep acc (n0, i0) = dictSet acc n0 v := by
            simp [useDefaultsStep, hcd]
          rw [hs, lookupD_dictSet, if_neg hn0]; exact hacc
      rw [List.foldl_cons]
      exact ih _ ht htail hacc2

theorem varAssignScan_reserved (fuel : Nat) (s : List Char)
    (acc : List (String × ParamInfo)) (name : String)
    (hres : reservedNames.contains name = true)
    (hacc : lookupD acc name = none) :
    lookupD (varAssignScan fuel s acc) name = none := by
  induction fuel generalizing s acc with
  | zero => exact hacc
  | succ n ih =>
    cases s with
    | nil => exact hacc
    | cons c rest =>
      unfold varAssignScan
      cases hm : matchVarAssign (c :: rest) with
      | none => exact ih rest acc hacc
      | some nv =>
        obtain ⟨r, value, after⟩ := nv
        by_cases hr : reservedNames.contains r = true
        · simp only [hr, if_true]
          exact ih after acc hacc
        · have hrn : r ≠ name := by
            intro e; rw [e] at hr; exact hr hres
          simp only [hr, Bool.false_eq_true, if_false]
          refine ih after _ ?_
          rw [lookupD_dictSet, if_neg hrn]
          exact hacc

/-! ## Claim theorems -/

/-- Claim C3: unit-suffixed numbers assigned to a dimension are converted
to millimeters.  Evaluation of the embedded extraction shows "width 10 cm"
gives 100 and "width 2 in" gives 50.8 as the claim states, but a value
written with the "mm" suffix is NOT taken with factor 1: the later `m`
unit pattern re-matches the trailing half of "mm" and overwrites the value
with factor 1000, so "width 10 mm" yields width = 10000, not 10. -/
theorem C3_unit_conversion_eval :
    extract_parameters_from_message "width 10 cm" [("width", ⟨"10", "number"⟩)] =
      [("width", PVal.num 100)] ∧
    extract_parameters_from_message "width 2 in" [("width", ⟨"10", "number"⟩)] =
      [("width", PVal.num (254 / 5))] ∧
    extract_parameters_from_message "width 10 mm" [("width", ⟨"10", "number"⟩)] =
      [("width", PVal.num 10000)] ∧
    ¬ extract_parameters_from_message "width 10 mm" [("width", ⟨"10", "number"⟩)] =
      [("width", PVal.num 10)] := by
  refine ⟨by with_unfolding_all rfl, by with_unfolding_all rfl, by with_unfolding_all rfl, ?_⟩
  intro h
  rw [show extract_parameters_from_message "width 10 mm" [("width", ⟨"10", "number"⟩)] =
      [("width", PVal.num 10000)] from by with_unfolding_all rfl] at h
  simp at h

/-- Claim C5: on a synthesis failure raised after the session was moved to
the "generating" phase, the handled call returns the fixed apology text,
but the state machine does NOT revert to "general": the catch-all handler
leaves `current_state` as "generating", so the session IS observed in the
generating phase at the start of the next inbound message. -/
theorem C5_synthesis_failure_leaves_generating :
    (chatStep true (fun _ => none) (fun _ _ => Except.error ()) (fun _ => "") []
        "width is 5"
        ⟨[], "collecting_parameters", "cube", [("width", ⟨"10", "number"⟩)], []⟩).1.text
      = apology_message ∧
    (chatStep true (fun _ => none) (fun _ _ => Except.error ()) (fun _ => "") []
        "width is 5"
        ⟨[], "collecting_parameters", "cube", [("width", ⟨"10", "number"⟩)], []⟩).2.1.current_state
      = "generating" ∧
    ¬ (chatStep true (fun _ => none) (fun _ _ => Except.error ()) (fun _ => "") []
        "width is 5"
        ⟨[], "collecting_parameters", "cube", [("width", ⟨"10", "number"⟩)], []⟩).2.1.current_state
      = "general" := by
  refine ⟨by with_unfolding_all rfl, by with_unfolding_all rfl, ?_⟩
  intro h
  rw [show (chatStep true (fun _ => none) (fun _ _ => Except.error ()) (fun _ => "") []
      "width is 5"
      ⟨[], "collecting_parameters", "cube", [("width", ⟨"10", "number"⟩)], []⟩).2.1.current_state
      = "generating" from by with_unfolding_all rfl] at h
  simp at h

/-- Claim C6 (counterexample): applying the claim's own example
{width: 7} to "width = 10;\nheight = 10;" does NOT rewrite the width
assignment — the replacement template `f"\1{7}\3"` holds the invalid
group reference 17, so `re.sub` raises `re.error` and `_apply_parameters`
raises instead of returning the claimed "width = 7;\nheight = 10;". -/
theorem C6_counterexample_numeric_raises :
    apply_parameters "width = 10;\nheight = 10;" [("width", "7")] = Except.error () ∧
    ¬ apply_parameters "width = 10;\nheight = 10;" [("width", "7")] =
      Except.ok "width = 7;\nheight = 10;" := by
  refine ⟨by with_unfolding_all rfl, ?_⟩
  intro h
  rw [show apply_parameters "width = 10;\nheight = 10;" [("width", "7")] = Except.error ()
      from by with_unfolding_all rfl] at h
  simp at h

/-- Claim C6 (amended): the claimed substitution never happens for a value
whose rendering starts with a digit.  With one non-octal digit ("7", or
the float rendering "5.0") the template `\1VALUE\3` is the invalid group
reference 1x and `re.sub` raises `re.error`; with two leading octal
digits (the float rendering "10.0") the reference is read as an octal
escape, so each matching assignment is replaced by the garbage character
`chr(0o110) = H` plus the rest of the value, losing the `name = ` prefix.
Only a value whose rendering does not start with a digit is substituted
verbatim — and then at EVERY matching occurrence (not only the first),
including assignments whose variable name merely ends with the parameter
name.  The `re.error` escapes `_apply_parameters` and is caught by
`generate_code`'s handler, which falls back with the source label
"Generated by fallback system due to error". -/
theorem C6_amended_theorem :
    apply_parameters "width = 10;\nheight = 10;" [("width", "7")] = Except.error () ∧
    apply_parameters "width = 1;width = 2;" [("width", "7")] = Except.error () ∧
    apply_parameters "width = 1;" [("width", "5.0")] = Except.error () ∧
    apply_parameters "width = 1;" [("width", "10.0")] = Except.ok "H.0;" ∧
    apply_parameters "label = a;label = b;" [("label", "foo")] =
      Except.ok "label = foo;label = foo;" ∧
    apply_parameters "biglabel = c;" [("label", "foo")] = Except.ok "biglabel = foo;" ∧
    (generate_code (fun _ => some ("width = 10;", "site")) [] true (fun _ => "")
        "cube" [("width", "7")]).1.source = "Generated by fallback system due to error" := by
  refine ⟨?_, ?_, ?_, ?_, ?_, ?_, ?_⟩ <;> with_unfolding_all rfl

/-- Claim C4 (counterexample): a total miss is NOT cached — with an
external pipeline that finds nothing, a first lookup of "cube" returns the
empty template and leaves the cache empty, and a second lookup of the same
query performs the external lookup again (count 1, not 0). -/
theorem C4_counterexample_miss_not_cached :
    (search_for_template (fun _ => none) [] "cube").1 = ⟨"", "", []⟩ ∧
    (search_for_template (fun _ => none) [] "cube").2.1 = [] ∧
    (search_for_template (fun _ => none)
        ((search_for_template (fun _ => none) [] "cube").2.1) "cube").2.2 = 1 := by
  refine ⟨?_, ?_, ?_⟩ <;> with_unfolding_all rfl

/-- Claim C4 (amended): at-most-once holds only for queries whose earlier
lookup SUCCEEDED: a call whose normalized query is already cached performs
no external lookup and returns the cached template unchanged, and a
successful miss stores its result under the normalized key; a total miss
is not cached, so a later identical query repeats the external lookup. -/
theorem C4_amended_theorem :
    (∀ (oracle : String → Option (String × String)) (cache : List (String × TemplateData))
        (q : String) (td : TemplateData),
        lookupD cache (normQuery q) = some td →
        search_for_template oracle cache q = (td, cache, 0)) ∧
    (∀ (oracle : String → Option (String × String)) (cache : List (String × TemplateData))
        (q code src : String),
        lookupD cache (normQuery q) = none → oracle q = some (code, src) → ¬ code = "" →
        search_for_template oracle cache q =
          (⟨code, src, wc_extract_parameters code⟩,
           dictSet cache (normQuery q) ⟨code, src, wc_extract_parameters code⟩, 1)) := by
  constructor
  · intro oracle cache q td hc
    unfold search_for_template
    rw [hc]
  · intro oracle cache q code src hc ho hne
    unfold search_for_template
    rw [hc, ho]
    simp [hne]

/-- Claim C9 (counterexample): the reserved-name blocklist is NOT applied
to module-signature parameters — extracting from "module thing(x = 1)"
produces a spec containing the reserved identifier x. -/
theorem C9_counterexample_module_reserved :
    lookupD (wc_extract_parameters "module thing(x = 1)") "x" =
      some (⟨"1", "number"⟩ : ParamInfo) := by
  with_unfolding_all rfl

/-- Claim C9 (amended): the reserved-short-identifier exclusion holds for
the ASSIGNMENT pass — for every code string, the parameter map built by
the `name = value;` scan contains no reserved name — and the spec's
example "x = 5; width = 10;" yields a spec containing only width; module
signature parameters, however, are not filtered (see the counterexample). -/
theorem C9_amended_theorem :
    (∀ (code : String) (name : String), reservedNames.contains name = true →
        lookupD (varAssignScan code.data.length code.data []) name = none) ∧
    wc_extract_parameters "x = 5; width = 10;" = [("width", ⟨"10", "number"⟩)] := by
  constructor
  · intro code name hres
    exact varAssignScan_reserved _ _ _ _ hres rfl
  · with_unfolding_all rfl

/-- Claim C8 (counterexample): with a "use defaults" message, a needed
parameter whose default string is EMPTY is omitted from the result rather
than passed through: for needed = {style: {default: "", kind: string}} the
extraction returns the empty map, where the claim's coercion rule
(pass-through for non-number, non-boolean kinds) predicts {style: ""}. -/
theorem C8_counterexample_empty_default :
    extract_parameters_from_message "use defaults" [("style", ⟨"", "string"⟩)] = [] ∧
    ¬ extract_parameters_from_message "use defaults" [("style", ⟨"", "string"⟩)] =
      [("style", PVal.str "")] := by
  refine ⟨by with_unfolding_all rfl, ?_⟩
  intro h
  rw [show extract_parameters_from_message "use defaults" [("style", ⟨"", "string"⟩)] =
      ([] : List (String × PVal)) from by with_unfolding_all rfl] at h
  simp at h

/-- Claim C8 (amended): with a "use defaults" message, every needed
parameter whose default string is non-empty is returned with its default
coerced by kind (number: floating parse, with an unparseable default
silently omitted; boolean: case-insensitive "true" test; otherwise the
default string unchanged), parameters with an empty default string are
omitted, and needed = {radius: {default: "10"}} with "use defaults" yields
{radius: 10.0}.  (`coerceDefault` is exactly this per-parameter rule.) -/
theorem C8_amended_theorem :
    (∀ (message : String) (needed : List (String × ParamInfo))
        (name : String) (info : ParamInfo),
        containsSub "default".data (lowerL message.data) = true →
        (needed.map Prod.fst).Nodup →
        (name, info) ∈ needed →
        lookupD (extract_parameters_from_message message needed) name = coerceDefault info) ∧
    extract_parameters_from_message "use defaults" [("radius", ⟨"10", "number"⟩)] =
      [("radius", PVal.num 10)] := by
  constructor
  · intro message needed name info htrig hnd hmem
    have hor : (containsSub "use default".data (lowerL message.data)
        || containsSub "default".data (lowerL message.data)) = true := by
      rw [htrig]; exact Bool.or_true _
    unfold extract_parameters_from_message
    rw [if_pos hor]
    exact useDefaults_fold_mem needed [] name info hmem hnd rfl
  · with_unfolding_all rfl

/-- Claim C10: ANY message containing the substring "default"
(case-insensitively) — not only the exact phrase "use defaults" — takes
the defaults shortcut: the extraction returns exactly the coerced-defaults
map and the per-parameter pattern scan and the unit-suffix scan are
skipped, so explicit values named in the same message are ignored (in the
concrete instance, "width is 5" and "height is 6" are both ignored in
favor of the defaults 10 and 20). -/
theorem C10_default_trigger_theorem :
    (∀ (message : String) (needed : List (String × ParamInfo)),
        containsSub "default".data (lowerL message.data) = true →
        extract_parameters_from_message message needed = useDefaultsExtract needed) ∧
    extract_parameters_from_message "width is 5 and height is 6, use the DEFAULTS"
        [("width", ⟨"10", "number"⟩), ("height", ⟨"20", "number"⟩)] =
      [("width", PVal.num 10), ("height", PVal.num 20)] := by
  constructor
  · intro message needed htrig
    have hor : (containsSub "use default".data (lowerL message.data)
        || containsSub "default".data (lowerL message.data)) = true := by
      rw [htrig]; exact Bool.or_true _
    unfold extract_parameters_from_message
    rw [if_pos hor]
  · with_unfolding_all rfl

/-- Claim C7: the classifier returns true exactly when the lowered message
holds at least one action keyword and at least one object keyword as a
substring (no word boundaries), and the spec's two examples evaluate as
stated. -/
theorem C7_classifier_theorem :
    (∀ message : String,
        is_model_request message = true ↔
          ((∃ k ∈ model_keywords, containsSub k.data (lowerL message.data) = true) ∧
           (∃ k ∈ object_keywords, containsSub k.data (lowerL message.data) = true))) ∧
    is_model_request "Please generate a cube for me" = true ∧
    is_model_request "generate a report" = false := by
  refine ⟨?_, by with_unfolding_all rfl, by with_unfolding_all rfl⟩
  intro message
  unfold is_model_request
  simp [List.any_eq_true]

/-- The fallback static templates never produce an empty code string: every
branch of `fallback_generation` begins with a non-empty comment header. -/
theorem fallback_generation_ne_empty (prompt : String) (ps : List (String × String)) :
    ¬ fallback_generation prompt ps = "" := by
  unfold fallback_generation
  dsimp only
  split_ifs <;> intro h <;> have h2 := congrArg String.length h <;>
    simp [String.length_append] at h2
  · exact absurd h2.1.1.1.1.1.1 (by decide)
  · exact absurd h2.1.1 (by decide)
  · exact absurd h2.1.1.1.1 (by decide)
  · exact absurd h2.1.1.1.1.1.1 (by decide)
  · exact absurd h2.1.1 (by decide)

/-- Claim C2: when the template lookup comes back empty (nothing cached for
the normalized prompt and the external pipeline finds nothing) and the
text-completion backend is unavailable, `generate_code` returns a result
labeled "Generated by fallback system" with a non-empty code string, for
every prompt and parameter map; being a total function of the embedding,
the call never raises. -/
theorem C2_fallback_theorem (oracle : String → Option (String × String))
    (cache : List (String × TemplateData)) (gen_text : String → String)
    (prompt : String) (parameters : List (String × String))
    (hcache : lookupD cache (normQuery prompt) = none)
    (horacle : oracle prompt = none) :
    (generate_code oracle cache false gen_text prompt parameters).1.source =
      "Generated by fallback system" ∧
    ¬ (generate_code oracle cache false gen_text prompt parameters).1.code = "" := by
  have hs : search_for_template oracle cache prompt = (⟨"", "", []⟩, cache, 1) := by
    unfold search_for_template
    rw [hcache, horacle]
  constructor
  · unfold generate_code
    rw [hs]
    simp
  · unfold generate_code
    rw [hs]
    simpa using fallback_generation_ne_empty prompt parameters

/-- Witness for C2 at the spec's concrete input: `generate("a cube 5x5x5")`
under an empty cache, a missing external pipeline and an unloaded model
returns non-empty fallback-labeled code. -/
theorem C2_fallback_witness :
    (generate_code (fun _ => none) [] false (fun _ => "") "a cube 5x5x5" []).1.source =
      "Generated by fallback system" ∧
    ¬ (generate_code (fun _ => none) [] false (fun _ => "") "a cube 5x5x5" []).1.code = "" :=
  C2_fallback_theorem (fun _ => none) [] (fun _ => "") "a cube 5x5x5" [] rfl rfl

/-- Claim C1: with needed = {width, height, depth}, phase
collecting_parameters and nothing collected, any three sequential messages
whose slot extraction each yields exactly one distinct dimension leave the
machine in collecting_parameters after the first and second messages, and
only the third message completes the collection, synthesizes (returning a
code payload) and moves the phase to general — the machine exits
collecting_parameters exactly once, on the third message. -/
theorem C1_slot_filling_convergence
    (oracle : String → Option (String × String))
    (synth : String → List (String × PVal) → Except Unit GenResult)
    (gen_text : String → String) (cache : List (String × TemplateData))
    (hist : List (String × String)) (cm : String)
    (m1 m2 m3 d1 d2 d3 : String) (v1 v2 v3 : ℚ) (i1 i2 i3 : ParamInfo)
    (hperm :
      (d1 = "width" ∧ d2 = "height" ∧ d3 = "depth") ∨
      (d1 = "width" ∧ d2 = "depth" ∧ d3 = "height") ∨
      (d1 = "height" ∧ d2 = "width" ∧ d3 = "depth") ∨
      (d1 = "height" ∧ d2 = "depth" ∧ d3 = "width") ∨
      (d1 = "depth" ∧ d2 = "width" ∧ d3 = "height") ∨
      (d1 = "depth" ∧ d2 = "height" ∧ d3 = "width"))
    (he1 : extract_parameters_from_message m1
        [("width", i1), ("height", i2), ("depth", i3)] = [(d1, PVal.num v1)])
    (he2 : extract_parameters_from_message m2
        [("width", i1), ("height", i2), ("depth", i3)] = [(d2, PVal.num v2)])
    (he3 : extract_parameters_from_message m3
        [("width", i1), ("height", i2), ("depth", i3)] = [(d3, PVal.num v3)])
    (hsynth : ∀ p a, ∃ r, synth p a = Except.ok r) :
    (let o1 := chatStep true oracle synth gen_text cache m1
        ⟨hist, "collecting_parameters", cm, [("width", i1), ("height", i2), ("depth", i3)], []⟩
     let o2 := chatStep true oracle synth gen_text o1.2.2 m2 o1.2.1
     let o3 := chatStep true oracle synth gen_text o2.2.2 m3 o2.2.1
     o1.2.1.current_state = "collecting_parameters" ∧
     o1.2.1.parameters_collected = [(d1, PVal.num v1)] ∧
     o2.2.1.current_state = "collecting_parameters" ∧
     o2.2.1.parameters_collected = [(d1, PVal.num v1), (d2, PVal.num v2)] ∧
     o3.2.1.current_state = "general" ∧
     (o3.1.code).isSome = true) := by
  obtain ⟨r, hr⟩ :=
    hsynth cm [(d1, PVal.num v1), (d2, PVal.num v2), (d3, PVal.num v3)]
  rcases hperm with hc | hc | hc | hc | hc | hc <;> obtain ⟨rfl, rfl, rfl⟩ := hc <;>
  · refine ⟨?_, ?_, ?_, ?_, ?_, ?_⟩ <;>
      simp [chatStep, he1, he2, he3, hr, missing_parameters, dictUpdate, dictSet, lookupD]

/-- Witness for C1 on the concrete run "width is 5", "height is 6",
"depth is 7" with the fallback cube specs and an always-succeeding
synthesizer. -/
theorem C1_slot_filling_witness :
    (let o1 := chatStep true (fun _ => none)
        (fun _ _ => Except.ok (⟨"", "", []⟩ : GenResult)) (fun _ => "") [] "width is 5"
        ⟨[], "collecting_parameters", "cube",
          [("width", ⟨"10", "number"⟩), ("height", ⟨"10", "number"⟩),
           ("depth", ⟨"10", "number"⟩)], []⟩
     let o2 := chatStep true (fun _ => none)
        (fun _ _ => Except.ok (⟨"", "", []⟩ : GenResult)) (fun _ => "") o1.2.2 "height is 6" o1.2.1
     let o3 := chatStep true (fun _ => none)
        (fun _ _ => Except.ok (⟨"", "", []⟩ : GenResult)) (fun _ => "") o2.2.2 "depth is 7" o2.2.1
     o1.2.1.current_state = "collecting_parameters" ∧
     o1.2.1.parameters_collected = [("width", PVal.num 5)] ∧
     o2.2.1.current_state = "collecting_parameters" ∧
     o2.2.1.parameters_collected = [("width", PVal.num 5), ("height", PVal.num 6)] ∧
     o3.2.1.current_state = "general" ∧
     (o3.1.code).isSome = true) :=
  C1_slot_filling_convergence (fun _ => none)
    (fun _ _ => Except.ok (⟨"", "", []⟩ : GenResult)) (fun _ => "") [] [] "cube"
    "width is 5" "height is 6" "depth is 7" "width" "height" "depth" 5 6 7
    ⟨"10", "number"⟩ ⟨"10", "number"⟩ ⟨"10", "number"⟩
    (Or.inl ⟨rfl, rfl, rfl⟩)
    (by with_unfolding_all rfl) (by with_unfolding_all rfl) (by with_unfolding_all rfl)
    (fun p a => ⟨⟨"", "", []⟩, rfl⟩)

end Web3D
